import Mathlib

/-!
Verification development for the metadata-resolution and deduplication
engine of `google_photos_takeout_helper/__main__.py`.

The Python source is shallowly embedded: pure data flow becomes Lean
functions, filesystem state becomes explicit values (lists of paths,
byte contents as `List Nat`), exceptions become `Except PyExc`, and the
external collaborators (hashlib's digest, `datetime.fromtimestamp`'s
formatting) become function parameters so every theorem holds for any
implementation of those collaborators.
-/

namespace TakeoutHelper

/-- Exception kinds raised by the embedded code (Python exception classes
that the source raises or lets propagate). -/
inductive PyExc where
  | fileNotFound
  | keyError
  | valueError
  | ioError
  deriving DecidableEq

/-- Boolean success test for an `Except` value (Python: the call returned
without raising). -/
def isOkE {ε α : Type} : Except ε α → Bool
  | Except.ok _ => true
  | Except.error _ => false

instance {ε α : Type} [DecidableEq ε] [DecidableEq α] : DecidableEq (Except ε α) := fun x y =>
  match x, y with
  | Except.ok a, Except.ok b =>
    if h : a = b then isTrue (congrArg Except.ok h)
    else isFalse (fun hc => h (Except.ok.inj hc))
  | Except.error a, Except.error b =>
    if h : a = b then isTrue (congrArg Except.error h)
    else isFalse (fun hc => h (Except.error.inj hc))
  | Except.ok _, Except.error _ => isFalse (fun hc => Except.noConfusion hc)
  | Except.error _, Except.ok _ => isFalse (fun hc => Except.noConfusion hc)

/-! ## ContentHasher: `get_hash` (source lines 132-158) -/

/-- A file in an indexed set: `fid` stands for the (distinct) path and
`content` for the file's bytes. -/
structure FileRec where
  fid : Nat
  content : List Nat
  deriving DecidableEq

/-- Embedding of `get_hash(file, first_chunk_only, hash_algo)`: with
`first_chunk_only=True` the digest is taken over `f.read(1024)`, i.e. the
first 1024 bytes; otherwise over the whole content streamed in chunks
(the digest of the concatenation of all chunks is the digest of the whole
content).  `H` abstracts the digest function (`hashlib.sha1`). -/
def get_hash (H : List Nat → List Nat) (content : List Nat) (first_chunk_only : Bool) : List Nat :=
  if first_chunk_only then H (content.take 1024) else H content

/-! ## DuplicateIndex: `find_duplicates` (source lines 178-222)

Tier 1 groups by `st_size` (`files_by_size`), keeping only files whose
size group has at least two members; tier 2 regroups the survivors by
`(size, small_hash)` (`files_by_small_hash`), keeping only keys with at
least two members; tier 3 buckets those survivors by the full-content
hash (`files_by_full_hash`). -/

/-- The `files_by_size[n]` multimap entry: the candidate files of byte
length `n`. -/
def files_by_size_group (files : List FileRec) (n : Nat) : List FileRec :=
  files.filter (fun f => decide (f.content.length = n))

/-- The files that survive tier 1: their size group has at least two
members, so they get a first-chunk hash. -/
def tier1 (files : List FileRec) : List FileRec :=
  files.filter (fun f => decide (2 ≤ (files_by_size_group files f.content.length).length))

/-- The `files_by_small_hash[(n, h)]` multimap entry over the tier-1
survivors. -/
def small_key_group (H : List Nat → List Nat) (files : List FileRec) (n : Nat) (h : List Nat) :
    List FileRec :=
  (tier1 files).filter
    (fun f => decide (f.content.length = n ∧ get_hash H f.content true = h))

/-- The files that survive tier 2: their `(size, small_hash)` group has at
least two members, so they get a full hash. -/
def tier2 (H : List Nat → List Nat) (files : List FileRec) : List FileRec :=
  (tier1 files).filter
    (fun f => decide (2 ≤ (small_key_group H files f.content.length
        (get_hash H f.content true)).length))

/-- The `files_by_full_hash[h]` multimap entry after a full build: all
tier-2 survivors whose full-content hash is `h`. -/
def fullHashBucket (H : List Nat → List Nat) (files : List FileRec) (h : List Nat) :
    List FileRec :=
  (tier2 H files).filter (fun f => decide (get_hash H f.content false = h))

/-- Two files are in the same `DuplicateGroup` when some entry of
`files_by_full_hash` holds both of them. -/
def sameDuplicateGroup (H : List Nat → List Nat) (files : List FileRec) (a b : FileRec) : Prop :=
  ∃ h, a ∈ fullHashBucket H files h ∧ b ∈ fullHashBucket H files h

/-! ## `remove_duplicates` (source lines 324-339)

The removal loop is `for file in files: if len(files) > 1:
file.unlink(); files.remove(file)`, i.e. Python iterates by an internal
index over the very list it is shrinking.  `removeLoopGo l i` models one
step of that iterator: it reads the element at index `i` of the current
list, unlinks and removes it when the list still has more than one
member, and stops when the index runs past the end. -/
def removeLoopGo {α : Type} [DecidableEq α] : Nat → List α → Nat → List α
  | 0, l, _ => l
  | fuel + 1, l, i =>
    match l.get? i with
    | none => l
    | some x =>
      if 1 < l.length then removeLoopGo fuel (l.erase x) (i + 1)
      else removeLoopGo fuel l (i + 1)

/-- The survivors of one duplicate group after the removal loop runs over
it (fuel is an upper bound on the number of iterations: the index grows
by one per iteration and the loop stops once it passes the length). -/
def remove_group {α : Type} [DecidableEq α] (l : List α) : List α :=
  removeLoopGo (l.length + 1) l 0

/-- `remove_duplicates` applied to one `files_by_full_hash` bucket:
buckets with fewer than two members are skipped (`continue`), the rest go
through the removal loop. -/
def remove_duplicates_group (H : List Nat → List Nat) (files : List FileRec) (h : List Nat) :
    List FileRec :=
  let g := fullHashBucket H files h
  if g.length < 2 then g else remove_group g

/-- Four distinct files with identical one-byte content: one duplicate
group of size four. -/
def files4 : List FileRec :=
  [⟨0, [7]⟩, ⟨1, [7]⟩, ⟨2, [7]⟩, ⟨3, [7]⟩]

/-! ## GPS write: `set_file_geo_data` (source lines 515-599) -/

/-- A JSON coordinate field: the sidecar schema allows a number or a
string in `geoData` / `geoDataExif`.  Numbers are embedded as rationals
(the source's floats carry decimal literals). -/
inductive GeoVal where
  | jnum (q : Rat)
  | jstr (s : String)
  deriving DecidableEq

/-- Embedding of the nested `_str_to_float` (source lines 534-538): a
string-typed value yields `0.0` unconditionally, a numeric value is kept. -/
def _str_to_float : GeoVal → Rat
  | GeoVal.jstr _ => 0
  | GeoVal.jnum q => q

/-- A `geoData` / `geoDataExif` block with its three coordinate fields. -/
structure GeoBlock where
  latitude : GeoVal
  longitude : GeoVal
  altitude : GeoVal
  deriving DecidableEq

/-- The parts of a parsed sidecar JSON dict that the metadata fixer
consumes: `photoTakenTime.timestamp` (a string, `none` when the key path
is absent, in which case access raises `KeyError`), and the two optional
geo blocks (`none` when the key is absent, in which case
`json[...]` raises `KeyError`). -/
structure SidecarJson where
  photoTakenTime : Option String
  geoData : Option GeoBlock
  geoDataExif : Option GeoBlock
  deriving DecidableEq

/-- The integer floor of a rational: floor division of the numerator by
the denominator (`math.floor`). -/
def ratFloor (q : Rat) : Int := Int.fdiv q.num q.den

/-- The floor of a rational as a rational. -/
def ratFloorR (q : Rat) : Rat := mkRat (ratFloor q) 1

/-- Python's built-in `round` (used on `sec_float * 100` and on the
altitude): round half to even.  With `f = floor q` and remainder
`r = num - f * den`, the fractional part `r / den` is compared with
`1 / 2` by comparing `2 * r` with `den`. -/
def pyRound (q : Rat) : Int :=
  let f : Int := Int.fdiv q.num q.den
  let r : Int := q.num - f * q.den
  if 2 * r < (q.den : Int) then f
  else if (q.den : Int) < 2 * r then f + 1
  else if f % 2 = 0 then f else f + 1

/-- Embedding of `degToDmsRational` (source lines 506-513): Python's
float `% 1` is `x - floor x`, `math.floor` is the integer floor. -/
def degToDmsRational (degFloat : Rat) : List (Int × Int) :=
  let min_float : Rat := (degFloat - ratFloorR degFloat) * 60
  let sec_float : Rat := (min_float - ratFloorR min_float) * 60
  let deg : Int := ratFloor degFloat
  let deg_min : Int := ratFloor min_float
  let sec : Int := pyRound (sec_float * 100)
  [(deg, 1), (deg_min, 1), (sec, 100)]

/-- A value stored in the GPS IFD dict built by `set_file_geo_data`. -/
inductive GpsVal where
  | version (a b c d : Nat)
  | ref (s : String)
  | dms (v : List (Int × Int))
  | byteVal (n : Nat)
  | rational (num : Int) (den : Int)
  deriving DecidableEq

/-- The coordinate-selection step of `set_file_geo_data` (source lines
542-550): coerce the three `geoData` fields; when longitude and latitude
are both zero fall back to the three `geoDataExif` fields.  A missing
`geoData` key — or a missing `geoDataExif` key when the fallback is
taken — raises `KeyError` (the subscripts are not guarded).  The result
triple is `(longitude, latitude, altitude)`. -/
def selected_geo (j : SidecarJson) : Except PyExc (Rat × Rat × Rat) :=
  match j.geoData with
  | none => Except.error PyExc.keyError
  | some gd =>
    let longitude : Rat := _str_to_float gd.longitude
    let latitude : Rat := _str_to_float gd.latitude
    let altitude : Rat := _str_to_float gd.altitude
    if longitude = 0 ∧ latitude = 0 then
      match j.geoDataExif with
      | none => Except.error PyExc.keyError
      | some ge =>
        Except.ok (_str_to_float ge.longitude, _str_to_float ge.latitude,
          _str_to_float ge.altitude)
    else Except.ok (longitude, latitude, altitude)

/-- The GPS IFD assembled from the selected coordinates (source lines
552-592, piexif GPS tag numbers 0..6): always `GPSVersionID`; the
latitude/longitude refs and degree-minute-second rationals only when at
least one magnitude is non-zero; the altitude pair only when the altitude
is non-zero. -/
def gps_ifd_of (longitude latitude altitude : Rat) : List (Nat × GpsVal) :=
  let longitude_ref : String := if longitude ≥ 0 then ("E") else ("W")
  let longitude2 : Rat := if longitude ≥ 0 then longitude else -longitude
  let latitude_ref : String := if latitude ≥ 0 then ("N") else ("S")
  let latitude2 : Rat := if latitude ≥ 0 then latitude else -latitude
  let base : List (Nat × GpsVal) := [(0, GpsVal.version 2 0 0 0)]
  let withCoords : List (Nat × GpsVal) :=
    if latitude2 ≠ 0 ∨ longitude2 ≠ 0 then
      base ++ [(1, GpsVal.ref latitude_ref), (2, GpsVal.dms (degToDmsRational latitude2)),
        (3, GpsVal.ref longitude_ref), (4, GpsVal.dms (degToDmsRational longitude2))]
    else base
  if altitude ≠ 0 then
    withCoords ++ [(5, GpsVal.byteVal 1), (6, GpsVal.rational (pyRound altitude) 1)]
  else withCoords

/-- Embedding of `set_file_geo_data`: select the coordinates, then build
the GPS IFD that is merged into the file's EXIF (the `piexif.insert`
failure at the end is caught and only printed, so the IFD built here is
the observable outcome). -/
def set_file_geo_data (j : SidecarJson) : Except PyExc (List (Nat × GpsVal)) :=
  (selected_geo j).map (fun t => gps_ifd_of t.1 t.2.1 t.2.2)

/-- A sidecar whose `geoData` and `geoDataExif` coordinates are all
zero. -/
def jGeoAllZero : SidecarJson :=
  ⟨none, some ⟨GeoVal.jnum 0, GeoVal.jnum 0, GeoVal.jnum 0⟩,
    some ⟨GeoVal.jnum 0, GeoVal.jnum 0, GeoVal.jnum 0⟩⟩

/-- A sidecar with zero `geoData` coordinates whose `geoDataExif` block
still carries a non-zero altitude. -/
def jGeoZeroAlt : SidecarJson :=
  ⟨none, some ⟨GeoVal.jnum 0, GeoVal.jnum 0, GeoVal.jnum 0⟩,
    some ⟨GeoVal.jnum 0, GeoVal.jnum 0, GeoVal.jnum 7⟩⟩

/-- A sidecar with all-zero `geoData` and a populated `geoDataExif`
(latitude 45, longitude -122, altitude 0). -/
def jGeoExif : SidecarJson :=
  ⟨none, some ⟨GeoVal.jnum 0, GeoVal.jnum 0, GeoVal.jnum 0⟩,
    some ⟨GeoVal.jnum 45, GeoVal.jnum (-122), GeoVal.jnum 0⟩⟩

/-! ## CollisionSafeNamer: `new_name_if_exists` (source lines 651-670) -/

/-- A destination path inside the fixed output folder: the filename stem
and suffix (`Path.stem` / `Path.suffix`). -/
structure PPath where
  stem : String
  suffix : String
  deriving DecidableEq

/-- The filename of a destination path. -/
def PPath.name (p : PPath) : String := p.stem ++ p.suffix

/-- The candidate built on collision number `i`:
`file.with_name(f"{file.stem}({i}){file.suffix}")`. -/
def with_counter (file : PPath) (i : Nat) : PPath :=
  ⟨file.stem ++ ("(") ++ toString i ++ (")"), file.suffix⟩

/-- Python dict assignment `rename_map[k] = v`: keys are unique, an
existing entry is updated in place preserving insertion order, a new key
is appended. -/
def dictSet : List (String × String) → String → String → List (String × String)
  | [], k, v => [(k, v)]
  | p :: t, k, v => if p.1 = k then (k, v) :: t else p :: dictSet t k v

/-- Dict lookup on the rename-map state. -/
def dictGet : List (String × String) → String → Option String
  | [], _ => none
  | p :: t, k => if p.1 = k then some p.2 else dictGet t k

/-- Number of entries stored under one key. -/
def countKey : List (String × String) → String → Nat
  | [], _ => 0
  | p :: t, k => (if p.1 = k then 1 else 0) + countKey t k

/-- The `while True` loop of `new_name_if_exists`: `existing` is the set
of filenames currently on disk in the destination folder, `new_name` the
current candidate, `i` the counter, `rm` the rename map.  On a collision
the next candidate is built and `rename_map[str(file)] = new_name` is
(re)assigned; otherwise the candidate and the map are returned.  `fuel`
bounds the iteration count (`none` = fuel exhausted, never reached for
adequate fuel). -/
def nn_loop (existing : List String) (file : PPath) :
    Nat → PPath → Nat → List (String × String) → Option (PPath × List (String × String))
  | 0, _, _, _ => none
  | fuel + 1, new_name, i, rm =>
    if PPath.name new_name ∈ existing then
      let nn := with_counter file i
      nn_loop existing file fuel nn (i + 1) (dictSet rm (PPath.name file) (PPath.name nn))
    else some (new_name, rm)

/-- Embedding of `new_name_if_exists(file)` over an explicit filesystem
state and rename-map state. -/
def new_name_if_exists (existing : List String) (rm : List (String × String)) (file : PPath) :
    Option (PPath × List (String × String)) :=
  nn_loop existing file (existing.length + 2) file 1 rm

/-! ## MetadataFixer: `fix_metadata` and its callees (source lines 343-646) -/

/-- The sentinel used when no date can be recovered (source line 71). -/
def DATE_NOT_FOUND_DATE : String := ("1971:01:01 01:01:01")

/-- Decimal digits folded to a natural number. -/
def digitsToNat (l : List Char) : Nat :=
  l.foldl (fun acc c => 10 * acc + (c.toNat - 48)) 0

/-- Model of Python `int(s)` on the timestamp strings: an optional sign
followed by digits; anything else raises `ValueError` (`none`). -/
def pyInt (s : String) : Option Int :=
  match s.data with
  | [] => none
  | '-' :: rest =>
    if rest ≠ [] ∧ rest.all Char.isDigit then some (-(digitsToNat rest : Int)) else none
  | '+' :: rest =>
    if rest ≠ [] ∧ rest.all Char.isDigit then some ((digitsToNat rest : Int)) else none
  | l => if l.all Char.isDigit then some ((digitsToNat l : Int)) else none

/-- Gregorian leap year, as validated by `datetime`. -/
def isLeapYear (y : Nat) : Bool :=
  (y % 4 == 0 && y % 100 != 0) || (y % 400 == 0)

/-- Days in a month, as validated by `datetime`. -/
def daysInMonth (y m : Nat) : Nat :=
  if m = 2 then (if isLeapYear y then 29 else 28)
  else if m = 4 ∨ m = 6 ∨ m = 9 ∨ m = 11 then 30
  else 31

/-- The six numeric fields of a `%Y:%m:%d %H:%M:%S` string in its
zero-padded canonical form (the only form this development evaluates;
`strptime` additionally tolerates non-zero-padded fields, which no claim
here depends on). -/
def strptime_fields : List Char → Option (Nat × Nat × Nat × Nat × Nat × Nat)
  | [y1, y2, y3, y4, c1, o1, o2, c2, d1, d2, sp, h1, h2, c3, m1, m2, c4, s1, s2] =>
    if (y1.isDigit && y2.isDigit && y3.isDigit && y4.isDigit &&
        o1.isDigit && o2.isDigit && d1.isDigit && d2.isDigit &&
        h1.isDigit && h2.isDigit && m1.isDigit && m2.isDigit &&
        s1.isDigit && s2.isDigit &&
        (c1 == ':') && (c2 == ':') && (sp == ' ') && (c3 == ':') && (c4 == ':')) then
      some (1000 * (y1.toNat - 48) + 100 * (y2.toNat - 48) + 10 * (y3.toNat - 48) +
          (y4.toNat - 48),
        10 * (o1.toNat - 48) + (o2.toNat - 48),
        10 * (d1.toNat - 48) + (d2.toNat - 48),
        10 * (h1.toNat - 48) + (h2.toNat - 48),
        10 * (m1.toNat - 48) + (m2.toNat - 48),
        10 * (s1.toNat - 48) + (s2.toNat - 48))
    else none
  | _ => none

/-- Does `datetime.strptime(s, "%Y:%m:%d %H:%M:%S")` succeed: the fields
parse and form a valid calendar date and time of day. -/
def strptime_ok (s : String) : Bool :=
  match strptime_fields s.data with
  | none => false
  | some (y, mo, d, h, mi, sec) =>
    decide (1 ≤ y) && decide (1 ≤ mo) && decide (mo ≤ 12) && decide (1 ≤ d) &&
    decide (d ≤ daysInMonth y mo) && decide (h ≤ 23) && decide (mi ≤ 59) &&
    decide (sec ≤ 59)

/-- The separator normalization of `set_creation_date_from_str` (source
lines 424-430): dashes, slashes, dots and backslashes all become colons. -/
def replace_seps (c : Char) : Char :=
  if c == '-' || c == '/' || c == '.' || c == '\\' then ':' else c

/-- Python `str.replace(": ", ":0")`: left-to-right, non-overlapping. -/
def replace_colon_space : List Char → List Char
  | [] => []
  | ':' :: ' ' :: rest => ':' :: '0' :: replace_colon_space rest
  | c :: rest => c :: replace_colon_space rest

/-- The full normalization: the four separator replacements, the
colon-space fix, then truncation to 19 characters. -/
def normalize_datetime (s : String) : String :=
  String.mk ((replace_colon_space (s.data.map replace_seps)).take 19)

/-- Embedding of `set_creation_date_from_str` (source lines 418-440):
normalize and parse the string; on any failure a `ValueError` is raised
(the body catches every exception and re-raises `ValueError`).  The
`os.utime` / Windows-creation-time writes are external effects modelled
as succeeding once the parse succeeded. -/
def set_creation_date_from_str (s : String) : Except PyExc Unit :=
  if strptime_ok (normalize_datetime s) then Except.ok () else Except.error PyExc.valueError

/-- Embedding of `set_creation_date_from_exif` (source lines 443-469):
`loadOk` is whether `piexif.load` succeeds, `tags` the decoded strings of
the three date tags in priority order (`none` = tag absent, which raises
`KeyError` and is skipped).  A tag whose string fails to parse raises
`ValueError`, which the loop catches and skips.  If no tag sets the date
the function raises `IOError`; that and the load failure are the only
exceptions escaping, and the caller catches both. -/
def set_creation_date_from_exif (loadOk : Bool) (tags : List (Option String)) :
    Except PyExc Unit :=
  if loadOk = false then Except.error PyExc.ioError
  else if tags.any (fun t =>
      match t with
      | some s => isOkE (set_creation_date_from_str s)
      | none => false) then Except.ok ()
  else Except.error PyExc.ioError

/-- Embedding of `get_date_str_from_json` (source lines 490-493):
`json["photoTakenTime"]["timestamp"]` raises `KeyError` when the key path
is absent, `int(...)` raises `ValueError` on a non-numeric string, and
the result is the formatted local time of the epoch value.  `fmt`
abstracts `datetime.fromtimestamp(...).strftime("%Y:%m:%d %H:%M:%S")`. -/
def get_date_str_from_json (j : SidecarJson) (fmt : Int → String) : Except PyExc String :=
  match j.photoTakenTime with
  | none => Except.error PyExc.keyError
  | some ts =>
    match pyInt ts with
    | none => Except.error PyExc.valueError
    | some n => Except.ok (fmt n)

/-- Embedding of `get_date_from_folder_meta` (source lines 375-401) over
the folder's album-metadata state: `none` = no album-meta JSON in the
folder (returns the `None` default), `some none` = album-meta JSON found
but the `albumData.date.timestamp` path is missing (`KeyError`, caught,
returns `None`), `some (some ts)` = the timestamp string is present, and
`int(ts)` raising `ValueError` propagates uncaught. -/
def get_date_from_folder_meta (albumMeta : Option (Option String)) (fmt : Int → String) :
    Except PyExc (Option String) :=
  match albumMeta with
  | none => Except.ok none
  | some none => Except.ok none
  | some (some ts) =>
    match pyInt ts with
    | none => Except.error PyExc.valueError
    | some n => Except.ok (some (fmt n))

/-- The sidecar-lookup state for one media file: `literalJson` describes
the colocated `<filename>.json` (`none` = no such file, `some none` = the
file exists but `json.load` fails, `some (some j)` = it parses to `j`),
and `folderTitleIndex` is the per-folder index of parseable JSON files
keyed by their internal "title" field (`_all_jsons_dict`, with the
unique-key dict already built). -/
structure SidecarEnv where
  literalJson : Option (Option SidecarJson)
  folderTitleIndex : List (String × SidecarJson)
  deriving DecidableEq

/-- Dict lookup in the per-folder title index. -/
def lookupTitle : List (String × SidecarJson) → String → Option SidecarJson
  | [], _ => none
  | p :: t, n => if p.1 = n then some p.2 else lookupTitle t n

/-- Embedding of `find_json_for_file` (source lines 343-372): a parseable
literal match is returned; a literal file whose parse fails raises
`FileNotFoundError` at once, before the folder index is ever consulted;
otherwise the folder title index is searched by the media file's name and
a miss raises `FileNotFoundError`. -/
def find_json_for_file (env : SidecarEnv) (name : String) : Except PyExc SidecarJson :=
  match env.literalJson with
  | some (some j) => Except.ok j
  | some none => Except.error PyExc.fileNotFound
  | none =>
    match lookupTitle env.folderTitleIndex name with
    | some j => Except.ok j
    | none => Except.error PyExc.fileNotFound

/-- The per-file environment of one `fix_metadata` call: the file's name,
its sidecar-lookup state, whether `piexif.load` succeeds on it and the
decoded strings of its three EXIF date tags, the containing folder's
album-metadata state, and whether `piexif.insert` succeeds when
`set_file_exif_date` writes the date tags back. -/
structure FixEnv where
  name : String
  sidecar : SidecarEnv
  exifLoadOk : Bool
  exifTags : List (Option String)
  albumMeta : Option (Option String)
  exifInsertOk : Bool
  deriving DecidableEq

/-- The observable outcome of a `fix_metadata` call that returns
normally: the date string written by `set_file_exif_date` /
`set_creation_date_from_str` in the sidecar or folder branch (`none` when
only the embedded-EXIF step set the date), whether the file was appended
to `s_date_from_folder_files`, to `s_no_date_at_all`, and to
`s_cant_insert_exif_files`. -/
structure FixResult where
  writtenDate : Option String
  date_from_folder : Bool
  no_date_at_all : Bool
  cant_insert_exif : Bool
  deriving DecidableEq

/-- The body of `fix_metadata` (source lines 603-646) after the sidecar
lookup, whose result is the third argument.  Only `FileNotFoundError` is
caught around the sidecar branch; a `KeyError`/`ValueError` from
`get_date_str_from_json`, a `KeyError` from `set_file_geo_data`'s
unguarded subscripts, or a `ValueError` from `set_creation_date_from_str`
propagates out (and `@logger.catch` on `main` then ends the run).
`set_file_exif_date` never raises: an insert failure is recorded in
`s_cant_insert_exif_files`.  In the fallback branch the file is appended
to `s_date_from_folder_files` unconditionally, and to `s_no_date_at_all`
exactly when the folder metadata yielded nothing.  Statistics on a path
that raises are not tracked here, since the run aborts. -/
def fix_after_json (fmt : Int → String) (env : FixEnv) :
    Except PyExc SidecarJson → Except PyExc FixResult
  | Except.ok google_json =>
    match get_date_str_from_json google_json fmt with
    | Except.error e => Except.error e
    | Except.ok meta_date =>
      match set_file_geo_data google_json with
      | Except.error e => Except.error e
      | Except.ok _ =>
        match set_creation_date_from_str meta_date with
        | Except.error e => Except.error e
        | Except.ok _ => Except.ok ⟨some meta_date, false, false, !env.exifInsertOk⟩
  | Except.error PyExc.fileNotFound =>
    if isOkE (set_creation_date_from_exif env.exifLoadOk env.exifTags) then
      Except.ok ⟨none, false, false, false⟩
    else
      match get_date_from_folder_meta env.albumMeta fmt with
      | Except.error e => Except.error e
      | Except.ok md =>
        match set_creation_date_from_str (md.getD DATE_NOT_FOUND_DATE) with
        | Except.error e => Except.error e
        | Except.ok _ =>
          Except.ok ⟨some (md.getD DATE_NOT_FOUND_DATE), true, md.isNone, !env.exifInsertOk⟩
  | Except.error e => Except.error e

/-- Embedding of `fix_metadata`: run the sidecar lookup and continue.
The embedded-EXIF attempt (step 1) is pure in this model, so computing it
inside the not-found branch matches the source's computing it first. -/
def fix_metadata (fmt : Int → String) (env : FixEnv) : Except PyExc FixResult :=
  fix_after_json fmt env (find_json_for_file env.sidecar env.name)

/-- A placeholder for the external `datetime` formatting collaborator. -/
def fmt0 : Int → String := fun n => toString n

/-- A literal sidecar that parses but carries no `photoTakenTime` key. -/
def jNoTime : SidecarJson :=
  ⟨none, some ⟨GeoVal.jnum 1, GeoVal.jnum 1, GeoVal.jnum 0⟩, none⟩

/-- A file whose colocated literal sidecar parses to `jNoTime`. -/
def envNoTime : FixEnv :=
  ⟨("a.jpg"), ⟨some (some jNoTime), []⟩, false, [], none, true⟩

/-- A file with unreadable EXIF, no sidecar at all, and no folder
album metadata. -/
def envAllFail : FixEnv :=
  ⟨("a.jpg"), ⟨none, []⟩, false, [], none, true⟩

/-- A file with unreadable EXIF, no sidecar at all, no folder album
metadata, and a failing `piexif.insert`. -/
def envNoSidecarBadInsert : FixEnv :=
  ⟨("b.jpg"), ⟨none, []⟩, false, [], none, false⟩

end TakeoutHelper

namespace TakeoutHelper

/-- Helper: a list holding two distinct members has length at least two. -/
theorem two_le_length_of_two_mem {α : Type} {a b : α} (hne : a ≠ b) :
    ∀ (l : List α), a ∈ l → b ∈ l → 2 ≤ l.length := by
  intro l
  induction l with
  | nil => intro ha _; cases ha
  | cons x t ih =>
    intro ha hb
    rcases List.mem_cons.mp ha with ha1 | hat
    · rcases List.mem_cons.mp hb with hb1 | hbt
      · exact absurd (ha1.trans hb1.symm) hne
      · have h1 := List.length_pos_of_mem hbt
        simp only [List.length_cons]
        omega
    · rcases List.mem_cons.mp hb with hb1 | hbt
      · have h1 := List.length_pos_of_mem hat
        simp only [List.length_cons]
        omega
      · have h2 := ih hat hbt
        simp only [List.length_cons]
        omega

/-- Helper: a filter keeping two distinct members of a list has length at
least two. -/
theorem two_le_filter_length {α : Type} {a b : α} {l : List α} {p : α → Bool}
    (ha : a ∈ l) (hb : b ∈ l) (hne : a ≠ b) (hpa : p a = true) (hpb : p b = true) :
    2 ≤ (l.filter p).length :=
  two_le_length_of_two_mem hne _ (List.mem_filter.mpr ⟨ha, hpa⟩)
    (List.mem_filter.mpr ⟨hb, hpb⟩)

/-- Helper: a pair of distinct indexed files of equal content length both
reach tier 2's input (their shared size group has two members). -/
theorem mem_tier1_of_pair {files : List FileRec} {a b : FileRec}
    (ha : a ∈ files) (hb : b ∈ files) (hne : a ≠ b)
    (hlen : a.content.length = b.content.length) : a ∈ tier1 files := by
  apply List.mem_filter.mpr
  refine ⟨ha, ?_⟩
  simp only [decide_eq_true_eq]
  apply two_le_filter_length ha hb hne
  · simp [files_by_size_group]
  · simp [files_by_size_group, hlen]

/-- Helper: a pair of distinct indexed files of identical content both
reach tier 3's hashing (their shared `(size, small_hash)` group has two
members). -/
theorem mem_tier2_of_pair (H : List Nat → List Nat) {files : List FileRec} {a b : FileRec}
    (ha : a ∈ files) (hb : b ∈ files) (hne : a ≠ b)
    (hc : a.content = b.content) : a ∈ tier2 H files := by
  have hlen : a.content.length = b.content.length := by rw [hc]
  have ha1 : a ∈ tier1 files := mem_tier1_of_pair ha hb hne hlen
  have hb1 : b ∈ tier1 files := mem_tier1_of_pair hb ha hne.symm hlen.symm
  apply List.mem_filter.mpr
  refine ⟨ha1, ?_⟩
  simp only [decide_eq_true_eq]
  apply two_le_filter_length ha1 hb1 hne
  · simp [small_key_group]
  · simp [small_key_group, hc]

/-- C2: after a full three-tier build, two distinct indexed files with
identical byte content land in the same `DuplicateGroup`; two files whose
contents differ anywhere are never in the same group (for an injective
digest, the code's collision-freedom assumption); and any two files in
one group agree on the full-content hash — no file is declared a
duplicate without a full-hash match. -/
theorem find_duplicates_exact (H : List Nat → List Nat) (hinj : Function.Injective H)
    (files : List FileRec) (a b : FileRec) (ha : a ∈ files) (hb : b ∈ files) (hne : a ≠ b) :
    (a.content = b.content → sameDuplicateGroup H files a b) ∧
    (a.content ≠ b.content → ¬ sameDuplicateGroup H files a b) ∧
    (sameDuplicateGroup H files a b →
      get_hash H a.content false = get_hash H b.content false) := by
  have hash_eq_of_group : sameDuplicateGroup H files a b →
      get_hash H a.content false = get_hash H b.content false := by
    rintro ⟨h, hma, hmb⟩
    have h1 := (List.mem_filter.mp hma).2
    have h2 := (List.mem_filter.mp hmb).2
    simp only [decide_eq_true_eq] at h1 h2
    rw [h1, h2]
  refine ⟨?_, ?_, hash_eq_of_group⟩
  · intro hc
    refine ⟨get_hash H a.content false, ?_, ?_⟩
    · apply List.mem_filter.mpr
      exact ⟨mem_tier2_of_pair H ha hb hne hc, by simp⟩
    · apply List.mem_filter.mpr
      refine ⟨mem_tier2_of_pair H hb ha hne.symm hc.symm, ?_⟩
      simp [get_hash, hc]
  · intro hcne hgroup
    apply hcne
    have := hash_eq_of_group hgroup
    simp only [get_hash, if_neg] at this
    exact hinj this

/-- Witness for C2 at a concrete input: two distinct files with identical
content, indexed together under the identity digest, share a duplicate
group. -/
theorem find_duplicates_exact_witness :
    sameDuplicateGroup (fun l => l) [⟨0, [1, 2, 3]⟩, ⟨1, [1, 2, 3]⟩]
      ⟨0, [1, 2, 3]⟩ ⟨1, [1, 2, 3]⟩ :=
  (find_duplicates_exact (fun l => l) (fun _ _ hxy => hxy) _ _ _
    (by simp) (by simp) (by decide)).1 rfl

/-- C9: on a file of at most 1024 bytes the partial digest (first chunk
only) coincides with the full digest, for every digest function. -/
theorem get_hash_small_file (H : List Nat → List Nat) (c : List Nat)
    (h : c.length ≤ 1024) : get_hash H c true = get_hash H c false := by
  simp [get_hash, List.take_of_length_le h]

/-- Witness for C9 at a concrete input: a three-byte file. -/
theorem get_hash_small_file_witness :
    get_hash (fun l => l) [5, 6, 7] true = get_hash (fun l => l) [5, 6, 7] false :=
  get_hash_small_file (fun l => l) [5, 6, 7] (by decide)

/-- C1 (code evaluated at the failing input): a duplicate group of four
identical files enters the removal loop, which deletes only the members
at iterator positions 0 and 2 — two files survive, not one, because the
loop removes elements from the list it is iterating. -/
theorem remove_duplicates_two_survivors :
    fullHashBucket (fun l => l) files4 [7] = [⟨0, [7]⟩, ⟨1, [7]⟩, ⟨2, [7]⟩, ⟨3, [7]⟩] ∧
    remove_duplicates_group (fun l => l) files4 [7] = [⟨1, [7]⟩, ⟨3, [7]⟩] := by
  decide

/-- C10: the coordinate coercion maps every string-typed field to zero,
including strings that would parse as valid numbers such as "45.0". -/
theorem str_to_float_string_is_zero :
    (∀ s : String, _str_to_float (GeoVal.jstr s) = 0) ∧
    _str_to_float (GeoVal.jstr ("45.0")) = 0 :=
  ⟨fun _ => rfl, rfl⟩

/-- C7 counterexample: with every coordinate zero (in `geoData` and in
the `geoDataExif` fallback) the GPS write still emits a GPS IFD carrying
the `GPSVersionID` tag (piexif tag 0), so the GPS tags are not "omitted
entirely" as the claim states — only the coordinate tags are. -/
theorem gps_version_always_written :
    set_file_geo_data jGeoAllZero = Except.ok [(0, GpsVal.version 2 0 0 0)] ∧
    set_file_geo_data jGeoAllZero ≠ Except.ok [] := by
  decide

/-- Helper: the sign-flip to a magnitude preserves being non-zero. -/
theorem mag_ne_zero (q : Rat) : (if q ≥ 0 then q else -q) ≠ 0 ↔ q ≠ 0 := by
  by_cases h : q ≥ 0 <;> simp [h]

/-- C7 amended: when the selected latitude and longitude are both zero,
the four coordinate tags (refs and values, piexif tags 1-4) are omitted
from the GPS IFD rather than written as zeroes; the IFD itself is still
produced with `GPSVersionID`, plus the altitude pair when the selected
altitude is non-zero. -/
theorem set_file_geo_data_zero_coords (j : SidecarJson) (lo la al : Rat)
    (hsel : selected_geo j = Except.ok (lo, la, al)) (hlo : lo = 0) (hla : la = 0) :
    set_file_geo_data j =
      Except.ok (if al = 0 then [(0, GpsVal.version 2 0 0 0)]
        else [(0, GpsVal.version 2 0 0 0), (5, GpsVal.byteVal 1),
          (6, GpsVal.rational (pyRound al) 1)]) := by
  subst hlo hla
  simp only [set_file_geo_data, hsel, Except.map]
  by_cases hal : al = 0 <;> simp [gps_ifd_of, hal]

/-- Witness for the amended C7 at a concrete input: all coordinates zero
but a non-zero fallback altitude. -/
theorem set_file_geo_data_zero_coords_witness :
    set_file_geo_data jGeoZeroAlt =
      Except.ok [(0, GpsVal.version 2 0 0 0), (5, GpsVal.byteVal 1),
        (6, GpsVal.rational 7 1)] := by
  have h := set_file_geo_data_zero_coords jGeoZeroAlt 0 0 7 (by decide) rfl rfl
  rw [h]
  decide

/-- C8: when both `geoData` coordinates coerce to zero the write uses the
three `geoDataExif` values instead, and when those are non-zero the
coordinate tags derived from them are present in the produced GPS IFD —
not a GPS-absent result. -/
theorem geo_fallback_to_exif (j : SidecarJson) (gd ge : GeoBlock)
    (hgd : j.geoData = some gd) (hge : j.geoDataExif = some ge)
    (hla : _str_to_float gd.latitude = 0) (hlo : _str_to_float gd.longitude = 0)
    (hnz : _str_to_float ge.latitude ≠ 0 ∨ _str_to_float ge.longitude ≠ 0) :
    selected_geo j = Except.ok
      (_str_to_float ge.longitude, _str_to_float ge.latitude, _str_to_float ge.altitude) ∧
    ∃ gps, set_file_geo_data j = Except.ok gps ∧
      (1, GpsVal.ref (if _str_to_float ge.latitude ≥ 0 then ("N") else ("S"))) ∈ gps ∧
      (2, GpsVal.dms (degToDmsRational (if _str_to_float ge.latitude ≥ 0
        then _str_to_float ge.latitude else - _str_to_float ge.latitude))) ∈ gps ∧
      (3, GpsVal.ref (if _str_to_float ge.longitude ≥ 0 then ("E") else ("W"))) ∈ gps ∧
      (4, GpsVal.dms (degToDmsRational (if _str_to_float ge.longitude ≥ 0
        then _str_to_float ge.longitude else - _str_to_float ge.longitude))) ∈ gps := by
  have hsel : selected_geo j = Except.ok
      (_str_to_float ge.longitude, _str_to_float ge.latitude, _str_to_float ge.altitude) := by
    simp [selected_geo, hgd, hlo, hla, hge]
  refine ⟨hsel, ?_⟩
  have hcond : (if _str_to_float ge.latitude ≥ 0 then _str_to_float ge.latitude
        else - _str_to_float ge.latitude) ≠ 0 ∨
      (if _str_to_float ge.longitude ≥ 0 then _str_to_float ge.longitude
        else - _str_to_float ge.longitude) ≠ 0 :=
    hnz.imp (mag_ne_zero _).mpr (mag_ne_zero _).mpr
  refine ⟨gps_ifd_of (_str_to_float ge.longitude) (_str_to_float ge.latitude)
    (_str_to_float ge.altitude), ?_, ?_, ?_, ?_, ?_⟩
  · simp [set_file_geo_data, hsel, Except.map]
  all_goals
    simp only [gps_ifd_of, if_pos hcond]
  all_goals
    by_cases hal : _str_to_float ge.altitude = 0 <;> simp [hal]

/-- Witness for C8 at a concrete input: `geoData` all zero, `geoDataExif`
latitude 45 and longitude -122, which end up written with refs "N" and
"W". -/
theorem geo_fallback_to_exif_witness :
    set_file_geo_data jGeoExif = Except.ok (gps_ifd_of (-122) 45 0) ∧
    (1, GpsVal.ref ("N")) ∈ gps_ifd_of (-122) 45 0 ∧
    (2, GpsVal.dms (degToDmsRational 45)) ∈ gps_ifd_of (-122) 45 0 ∧
    (3, GpsVal.ref ("W")) ∈ gps_ifd_of (-122) 45 0 ∧
    (4, GpsVal.dms (degToDmsRational 122)) ∈ gps_ifd_of (-122) 45 0 := by
  obtain ⟨hsel, gps, hgps, h1, h2, h3, h4⟩ := geo_fallback_to_exif jGeoExif
    ⟨GeoVal.jnum 0, GeoVal.jnum 0, GeoVal.jnum 0⟩
    ⟨GeoVal.jnum 45, GeoVal.jnum (-122), GeoVal.jnum 0⟩
    rfl rfl (by decide) (by decide) (Or.inl (by decide))
  have hset : set_file_geo_data jGeoExif = Except.ok (gps_ifd_of (-122) 45 0) := rfl
  have hg : gps = gps_ifd_of (-122) 45 0 := Except.ok.inj (hgps.symm.trans hset)
  subst hg
  exact ⟨hset, h1, h2, h3, h4⟩

/-- C4 counterexample: the proposed destination `a.jpg` collides twice
across two copies.  The first call records the mapping `a.jpg` to
`a(1).jpg`; the second call with the same proposed path overwrites that
recorded entry to `a(2).jpg`, so a rename-map entry is not preserved once
recorded. -/
theorem rename_map_entry_overwritten :
    new_name_if_exists [("a.jpg")] [] ⟨("a"), (".jpg")⟩ =
      some (⟨("a(1)"), (".jpg")⟩, [(("a.jpg"), ("a(1).jpg"))]) ∧
    new_name_if_exists [("a.jpg"), ("a(1).jpg")] [(("a.jpg"), ("a(1).jpg"))]
        ⟨("a"), (".jpg")⟩ =
      some (⟨("a(2)"), (".jpg")⟩, [(("a.jpg"), ("a(2).jpg"))]) := by
  decide

/-- Helper: assignment then lookup on the modelled dict. -/
theorem dictGet_dictSet_self (m : List (String × String)) (k v : String) :
    dictGet (dictSet m k v) k = some v := by
  induction m with
  | nil => simp [dictSet, dictGet]
  | cons p t ih => by_cases h : p.1 = k <;> simp [dictSet, dictGet, h, ih]

/-- Helper: assignment keeps exactly one entry under the assigned key. -/
theorem countKey_dictSet_self (m : List (String × String)) (k v : String) :
    countKey (dictSet m k v) k = max 1 (countKey m k) := by
  induction m with
  | nil => simp [dictSet, countKey]
  | cons p t ih =>
    by_cases h : p.1 = k <;> simp [dictSet, countKey, h, ih] <;> omega

/-- Helper: assignment leaves the entry count of other keys unchanged. -/
theorem countKey_dictSet_ne (m : List (String × String)) (k v j : String) (h : k ≠ j) :
    countKey (dictSet m k v) j = countKey m j := by
  induction m with
  | nil => simp [dictSet, countKey, h]
  | cons p t ih =>
    by_cases hp : p.1 = k <;> simp [dictSet, countKey, hp, h, ih] <;> omega

/-- Helper: dict assignment preserves key uniqueness. -/
theorem countKey_dictSet_le_one (m : List (String × String)) (k v : String)
    (hwf : ∀ j, countKey m j ≤ 1) : ∀ j, countKey (dictSet m k v) j ≤ 1 := by
  intro j
  by_cases h : k = j
  · subst h
    rw [countKey_dictSet_self]
    have := hwf k
    omega
  · rw [countKey_dictSet_ne m k v j h]
    exact hwf j

/-- Helper: one unfolding step of the collision loop. -/
theorem nn_loop_succ (existing : List String) (file : PPath) (fuel : Nat) (nn : PPath)
    (i : Nat) (rm : List (String × String)) :
    nn_loop existing file (fuel + 1) nn i rm =
      if PPath.name nn ∈ existing then
        nn_loop existing file fuel (with_counter file i) (i + 1)
          (dictSet rm (PPath.name file) (PPath.name (with_counter file i)))
      else some (nn, rm) := rfl

/-- Helper: loop invariant of `nn_loop` — once the map points the
proposed path at the current candidate, a successful exit leaves it
pointing at the final chosen path, and key uniqueness is preserved. -/
theorem nn_loop_map_invariant (existing : List String) (file : PPath) :
    ∀ (fuel : Nat) (nn : PPath) (i : Nat) (rm : List (String × String))
      (final : PPath) (rm2 : List (String × String)),
      dictGet rm (PPath.name file) = some (PPath.name nn) →
      (∀ k, countKey rm k ≤ 1) →
      nn_loop existing file fuel nn i rm = some (final, rm2) →
      dictGet rm2 (PPath.name file) = some (PPath.name final) ∧
        ∀ k, countKey rm2 k ≤ 1 := by
  intro fuel
  induction fuel with
  | zero => intro nn i rm final rm2 _ _ hrun; simp [nn_loop] at hrun
  | succ fuel ih =>
    intro nn i rm final rm2 hget hwf hrun
    rw [nn_loop_succ] at hrun
    by_cases hmem : PPath.name nn ∈ existing
    · rw [if_pos hmem] at hrun
      exact ih (with_counter file i) (i + 1) _ final rm2
        (dictGet_dictSet_self rm (PPath.name file) (PPath.name (with_counter file i)))
        (countKey_dictSet_le_one rm (PPath.name file)
          (PPath.name (with_counter file i)) hwf) hrun
    · rw [if_neg hmem] at hrun
      have hp := Option.some.inj hrun
      have h1 : nn = final := congrArg Prod.fst hp
      have h2 : rm = rm2 := congrArg Prod.snd hp
      subst h1
      subst h2
      exact ⟨hget, hwf⟩

/-- C4 amended: within one call the rename-map entry for the proposed
path is reassigned on every collision iteration (and a later call for the
same proposed path overwrites it again), but at the end of any successful
call that hit at least one collision the map holds exactly one entry for
the proposed path and it maps to that call's final chosen path. -/
theorem new_name_final_mapping (existing : List String) (file : PPath)
    (rm rm2 : List (String × String)) (final : PPath)
    (hwf : ∀ k, countKey rm k ≤ 1)
    (hcol : PPath.name file ∈ existing)
    (h : new_name_if_exists existing rm file = some (final, rm2)) :
    dictGet rm2 (PPath.name file) = some (PPath.name final) ∧
      ∀ k, countKey rm2 k ≤ 1 := by
  have h2 : nn_loop existing file (existing.length + 1 + 1) file 1 rm
      = some (final, rm2) := h
  rw [nn_loop_succ, if_pos hcol] at h2
  exact nn_loop_map_invariant existing file (existing.length + 1)
    (with_counter file 1) 2 _ final rm2
    (dictGet_dictSet_self rm (PPath.name file) (PPath.name (with_counter file 1)))
    (countKey_dictSet_le_one rm (PPath.name file)
      (PPath.name (with_counter file 1)) hwf) h2

/-- C3 counterexample: a media file whose colocated sidecar parses but
lacks the `photoTakenTime` key makes `fix_metadata` raise `KeyError` —
only `FileNotFoundError` is caught around the sidecar branch, so this
malformed-data error is not recorded and escapes (aborting the run via
`@logger.catch` on `main`), instead of being treated as a recorded
failure with processing continuing. -/
theorem malformed_sidecar_aborts :
    fix_metadata fmt0 envNoTime = Except.error PyExc.keyError := by
  decide

/-- C3 amended: the not-found tiers never abort — whenever the sidecar
lookup raises `FileNotFoundError` and the folder has no album-metadata
JSON, `fix_metadata` returns normally for every outcome of the
embedded-EXIF step (so EXIF read failures are caught and the chain
continues), and the exact result shows the recordings: when the embedded
date was read nothing further is written or recorded; when it also
failed, the sentinel date is written, the file is recorded in
`s_no_date_at_all`, and a failing `piexif.insert` is caught and recorded
in `s_cant_insert_exif_files` (it never raises). -/
theorem notfound_errors_never_abort (fmt : Int → String) (env : FixEnv)
    (h1 : find_json_for_file env.sidecar env.name = Except.error PyExc.fileNotFound)
    (h2 : env.albumMeta = none) :
    fix_metadata fmt env = Except.ok
      (if isOkE (set_creation_date_from_exif env.exifLoadOk env.exifTags) = true then
        ⟨none, false, false, false⟩
      else ⟨some DATE_NOT_FOUND_DATE, true, true, !env.exifInsertOk⟩) := by
  have hs : set_creation_date_from_str DATE_NOT_FOUND_DATE = Except.ok () := by decide
  unfold fix_metadata
  rw [h1]
  by_cases hx : isOkE (set_creation_date_from_exif env.exifLoadOk env.exifTags) = true <;>
    simp [fix_after_json, h2, get_date_from_folder_meta, hs, hx]

/-- Witness for the amended C3 at a concrete input: EXIF unreadable, no
sidecar, no album metadata, and a failing EXIF insert — the call still
returns normally, records the file as having no recoverable date, and
records the insert failure. -/
theorem notfound_errors_never_abort_witness :
    fix_metadata fmt0 envNoSidecarBadInsert =
      Except.ok ⟨some DATE_NOT_FOUND_DATE, true, true, true⟩ := by
  have h := notfound_errors_never_abort fmt0 envNoSidecarBadInsert rfl rfl
  rw [h]
  decide

/-- C5 (code evaluated at the failing input): when the embedded-EXIF
step, the sidecar lookup, and the folder album metadata all fail, the
written date is the sentinel and the file is recorded in
`s_no_date_at_all` — but it is also appended to
`s_date_from_folder_files` (the folder-metadata resolution source), so it
is not recorded under the default-fallback source exclusively, contrary
to the claim and to the source's own comment on that list. -/
theorem default_fallback_recorded_twice :
    fix_metadata fmt0 envAllFail =
      Except.ok ⟨some ("1971:01:01 01:01:01"), true, true, false⟩ := by
  decide

/-- C6: a colocated literal sidecar that exists but fails to parse makes
`find_json_for_file` raise `FileNotFoundError` immediately; the result
does not depend on the per-folder title index (it is not consulted); and
the caller's fallback chain behaves exactly as if no sidecar had been
found at all. -/
theorem unparseable_literal_is_not_found (env : SidecarEnv) (name : String)
    (h : env.literalJson = some none) :
    find_json_for_file env name = Except.error PyExc.fileNotFound ∧
    (∀ idx, find_json_for_file ⟨env.literalJson, idx⟩ name =
      Except.error PyExc.fileNotFound) ∧
    (∀ (fmt : Int → String) (nm : String) (elo : Bool) (etags : List (Option String))
      (am : Option (Option String)) (ein : Bool),
      fix_metadata fmt ⟨nm, env, elo, etags, am, ein⟩ =
        fix_metadata fmt ⟨nm, SidecarEnv.mk none [], elo, etags, am, ein⟩) := by
  refine ⟨?_, ?_, ?_⟩
  · simp [find_json_for_file, h]
  · intro idx
    simp [find_json_for_file, h]
  · intro fmt nm elo etags am ein
    have e1 : find_json_for_file env nm = Except.error PyExc.fileNotFound := by
      simp [find_json_for_file, h]
    have e2 : find_json_for_file (SidecarEnv.mk none []) nm =
        Except.error PyExc.fileNotFound := by
      simp [find_json_for_file, lookupTitle]
    unfold fix_metadata
    simp only []
    rw [e1, e2]
    rfl

/-- Witness for C6 at a concrete input: the folder index even contains an
entry keyed by the file's own name, yet the unreadable literal sidecar
still yields not-found and the chain proceeds as if no sidecar existed. -/
theorem unparseable_literal_is_not_found_witness :
    find_json_for_file ⟨some none, [(("a.jpg"), jNoTime)]⟩ ("a.jpg") =
      Except.error PyExc.fileNotFound ∧
    fix_metadata fmt0 ⟨("a.jpg"), ⟨some none, [(("a.jpg"), jNoTime)]⟩, false, [], none, true⟩ =
      fix_metadata fmt0 ⟨("a.jpg"), SidecarEnv.mk none [], false, [], none, true⟩ := by
  have h := unparseable_literal_is_not_found ⟨some none, [(("a.jpg"), jNoTime)]⟩ ("a.jpg") rfl
  exact ⟨h.1, h.2.2 fmt0 ("a.jpg") false [] none true⟩

/-- Witness for the amended C4 at a concrete input: one collision on
`a.jpg` leaves a single map entry sending `a.jpg` to `a(1).jpg`. -/
theorem new_name_final_mapping_witness :
    dictGet [(("a.jpg"), ("a(1).jpg"))] (PPath.name ⟨("a"), (".jpg")⟩) =
      some (PPath.name ⟨("a(1)"), (".jpg")⟩) ∧
    countKey [(("a.jpg"), ("a(1).jpg"))] ("a.jpg") ≤ 1 := by
  have h := new_name_final_mapping [("a.jpg")] ⟨("a"), (".jpg")⟩ []
    [(("a.jpg"), ("a(1).jpg"))] ⟨("a(1)"), (".jpg")⟩
    (fun k => by simp [countKey]) (by decide) (by decide)
  exact ⟨h.1, h.2 ("a.jpg")⟩

end TakeoutHelper
